import Mathlib

/-!
Verification development for the `id_app_ocr` document-processing pipeline
(`src/ocr_app/processor.py`, with `app.py` / `database.py` as thin callers).

The pipeline is embedded shallowly:

* Python strings are modelled as `String` / `List Char` (all computations that
  must reduce in the kernel are carried out on `List Char`);
* machine floats (OCR confidences) are modelled as `ℚ`;
* raw binary blobs (image bytes) are modelled as `List Nat` handles whose
  identity is all that matters;
* every external effect (PDF rendering, image normalization, the PaddleOCR
  engine, the HTTP call to the language-model endpoint, `json.loads`,
  `json.dumps`, the face cascade, the database insert) is a field of an
  explicit environment record `Env`; exceptions raised by those collaborators
  are modelled with `Except` / dedicated outcome types;
* the Celery task body `process_documents_task` is modelled as a pure function
  from the environment and the submitted files to a run result plus the ordered
  trace of pipeline stages that were actually reached.

`datetime.strptime` / `strftime` are embedded faithfully to CPython's
`_strptime` regexes for the five format strings the code uses: `%Y` matches
exactly four digits, `%d` matches `3[01]|[12]\d|0[1-9]|[1-9]`, `%m` matches
`1[0-2]|0[1-9]|[1-9]`, month names are matched case-insensitively, a space in
the format matches one or more whitespace characters, the whole input must be
consumed, and calendar validation (leap years, month lengths, year range
1..9999) happens after the syntactic match, failing the whole format.
-/

namespace OcrApp

/-- Opaque handle for a Python `bytes` value (image/file contents). -/
abbrev Bytes := List Nat

/-- A JSON leaf value stored in a structured record: either a string or an
arbitrary non-string JSON value (number, null, nested object, ...), which the
post-validator never inspects. -/
inductive Field where
  | strF (s : String)
  | otherF (n : Nat)
deriving DecidableEq, Repr

/-- Result of `json.loads` on the model output: a JSON object (Python dict,
modelled as an insertion-ordered association list) or any non-dict JSON value. -/
inductive Data where
  | dict (fields : List (String × Field))
  | notDict (v : Field)
deriving DecidableEq, Repr

/-! ## Character-level helpers (Python string operations, kernel-reducible) -/

/-- The decimal digit character for `n < 10` (ASCII `'0' + n`). -/
def digitChar (n : Nat) : Char := Char.ofNat (48 + n)

/-- Numeric value of an ASCII digit character. -/
def digitVal (c : Char) : Nat := c.toNat - 48

/-- Decimal digit string of a natural number, least significant digit last
(the fuel argument dominates the number of digits); models Python `str(n)`
and `f-string` interpolation of an `int`. -/
def natDigitsAux : Nat → Nat → List Char
  | 0, _ => []
  | fuel + 1, n => if n < 10 then [digitChar n] else natDigitsAux fuel (n / 10) ++ [digitChar (n % 10)]

/-- Decimal digit string of a natural number. -/
def natDigits (n : Nat) : List Char := natDigitsAux (n + 1) n

/-- Is `p` a prefix of the second list? -/
def isPre : List Char → List Char → Bool
  | [], _ => true
  | _ :: _, [] => false
  | a :: p, b :: l => a == b && isPre p l

/-- Does the character sequence `needle` occur inside `hay`?  Models Python's
substring test `needle in hay`. -/
def containsSeq (needle : List Char) : List Char → Bool
  | [] => needle.isEmpty
  | c :: t => isPre needle (c :: t) || containsSeq needle t

/-- Number of positions of `l` at which the pattern `p` starts an occurrence. -/
def countSub (p : List Char) : List Char → Nat
  | [] => 0
  | c :: t => (if isPre p (c :: t) then 1 else 0) + countSub p t

/-- Lexicographic comparison of two character sequences by code point; models
Python `str` ordering as used by `sorted`. -/
def lexLe : List Char → List Char → Bool
  | [], _ => true
  | _ :: _, [] => false
  | a :: as, b :: bs =>
    if a.val.toNat < b.val.toNat then true
    else if b.val.toNat < a.val.toNat then false
    else lexLe as bs

/-! ## Date parsing: `datetime.strptime` for the five formats of the source -/

/-- Leap-year test, as in CPython's `datetime`. -/
def isLeap (y : Nat) : Bool := y % 4 == 0 && (y % 100 != 0 || y % 400 == 0)

/-- Number of days in a month (`1..12`) of year `y`. -/
def daysInMonth (y m : Nat) : Nat :=
  if m == 2 then (if isLeap y then 29 else 28)
  else if m == 4 || m == 6 || m == 9 || m == 11 then 30
  else 31

/-- A calendar date as produced by a successful `strptime`. -/
structure YMD where
  year : Nat
  month : Nat
  day : Nat
deriving DecidableEq, Repr

/-- Expect the literal character `ch` next. -/
def expectChar (ch : Char) : List Char → Option (List Char)
  | c :: rest => if c = ch then some rest else none
  | [] => none

/-- Consume one or more whitespace characters (regex `\s+`, greedy; the
following token never starts with whitespace in the formats used, so greedy
consumption matches the regex backtracking semantics). -/
def wsPlus : List Char → Option (List Char)
  | c :: rest => if c.isWhitespace then some (rest.dropWhile Char.isWhitespace) else none
  | [] => none

/-- Consume exactly four ASCII digits (regex for `%Y`). -/
def digits4 : List Char → Option (Nat × List Char)
  | c1 :: c2 :: c3 :: c4 :: rest =>
    if c1.isDigit && c2.isDigit && c3.isDigit && c4.isDigit then
      some (digitVal c1 * 1000 + digitVal c2 * 100 + digitVal c3 * 10 + digitVal c4, rest)
    else none
  | _ => none

/-- Consume four digits that must end the input (`%Y` is last in the
non-ISO formats and `_strptime` requires full consumption). -/
def year4End (cs : List Char) : Option Nat :=
  (digits4 cs).bind fun p => if p.2.isEmpty then some p.1 else none

/-- Alternatives for `%m` (regex `1[0-2]|0[1-9]|[1-9]`), in regex
backtracking order, each with the unconsumed remainder. -/
def monthAlts : List Char → List (Nat × List Char)
  | c1 :: c2 :: rest =>
    (if c1 = '1' ∧ ('0' ≤ c2 ∧ c2 ≤ '2') then [(10 + digitVal c2, rest)] else []) ++
    (if c1 = '0' ∧ ('1' ≤ c2 ∧ c2 ≤ '9') then [(digitVal c2, rest)] else []) ++
    (if '1' ≤ c1 ∧ c1 ≤ '9' then [(digitVal c1, c2 :: rest)] else [])
  | [c1] => if '1' ≤ c1 ∧ c1 ≤ '9' then [(digitVal c1, [])] else []
  | [] => []

/-- Alternatives for `%d` (regex `3[01]|[12]\d|0[1-9]|[1-9]`), in regex
backtracking order. -/
def dayAlts : List Char → List (Nat × List Char)
  | c1 :: c2 :: rest =>
    (if c1 = '3' ∧ (c2 = '0' ∨ c2 = '1') then [(30 + digitVal c2, rest)] else []) ++
    (if (c1 = '1' ∨ c1 = '2') ∧ c2.isDigit then [(digitVal c1 * 10 + digitVal c2, rest)] else []) ++
    (if c1 = '0' ∧ ('1' ≤ c2 ∧ c2 ≤ '9') then [(digitVal c2, rest)] else []) ++
    (if '1' ≤ c1 ∧ c1 ≤ '9' then [(digitVal c1, c2 :: rest)] else [])
  | [c1] => if '1' ≤ c1 ∧ c1 ≤ '9' then [(digitVal c1, [])] else []
  | [] => []

/-- Try the alternatives of a field in order, committing to the first one
whose continuation succeeds (regex backtracking). -/
def tryAlts {α : Type} (alts : List (Nat × List Char)) (k : Nat → List Char → Option α) : Option α :=
  match alts with
  | [] => none
  | (v, r) :: t =>
    match k v r with
    | some x => some x
    | none => tryAlts t k

/-- Case-insensitive month-name table lookup: the first table entry that is a
prefix of the lowercased input matches (no month name is a prefix of another,
so the order is immaterial). -/
def matchNameIn (names : List (List Char × Nat)) (cs : List Char) : Option (Nat × List Char) :=
  names.findSome? fun nv =>
    if isPre nv.1 (cs.map Char.toLower) then some (nv.2, cs.drop nv.1.length) else none

/-- Abbreviated month names for `%b`. -/
def abbrMonths : List (List Char × Nat) :=
  [("jan".data, 1), ("feb".data, 2), ("mar".data, 3), ("apr".data, 4),
   ("may".data, 5), ("jun".data, 6), ("jul".data, 7), ("aug".data, 8),
   ("sep".data, 9), ("oct".data, 10), ("nov".data, 11), ("dec".data, 12)]

/-- Full month names for `%B`. -/
def fullMonths : List (List Char × Nat) :=
  [("january".data, 1), ("february".data, 2), ("march".data, 3), ("april".data, 4),
   ("may".data, 5), ("june".data, 6), ("july".data, 7), ("august".data, 8),
   ("september".data, 9), ("october".data, 10), ("november".data, 11), ("december".data, 12)]

/-- Syntactic match of `"%Y-%m-%d"` against the whole input. -/
def synYmd (cs : List Char) : Option (Nat × Nat × Nat) :=
  (digits4 cs).bind fun yr =>
    (expectChar '-' yr.2).bind fun r1 =>
      tryAlts (monthAlts r1) fun m r2 =>
        (expectChar '-' r2).bind fun r3 =>
          tryAlts (dayAlts r3) fun d r4 =>
            if r4.isEmpty then some (yr.1, m, d) else none

/-- Syntactic match of `"%d %b %Y"` against the whole input. -/
def synDbY (cs : List Char) : Option (Nat × Nat × Nat) :=
  tryAlts (dayAlts cs) fun d r1 =>
    (wsPlus r1).bind fun r2 =>
      (matchNameIn abbrMonths r2).bind fun mr =>
        (wsPlus mr.2).bind fun r3 =>
          (year4End r3).map fun y => (y, mr.1, d)

/-- Syntactic match of `"%B %d, %Y"` against the whole input. -/
def synBdY (cs : List Char) : Option (Nat × Nat × Nat) :=
  (matchNameIn fullMonths cs).bind fun mr =>
    (wsPlus mr.2).bind fun r1 =>
      tryAlts (dayAlts r1) fun d r2 =>
        (expectChar ',' r2).bind fun r3 =>
          (wsPlus r3).bind fun r4 =>
            (year4End r4).map fun y => (y, mr.1, d)

/-- Syntactic match of `"%d/%m/%Y"` against the whole input. -/
def synDmY (cs : List Char) : Option (Nat × Nat × Nat) :=
  tryAlts (dayAlts cs) fun d r1 =>
    (expectChar '/' r1).bind fun r2 =>
      tryAlts (monthAlts r2) fun m r3 =>
        (expectChar '/' r3).bind fun r4 =>
          (year4End r4).map fun y => (y, m, d)

/-- Syntactic match of `"%m/%d/%Y"` against the whole input. -/
def synMdY (cs : List Char) : Option (Nat × Nat × Nat) :=
  tryAlts (monthAlts cs) fun m r1 =>
    (expectChar '/' r1).bind fun r2 =>
      tryAlts (dayAlts r2) fun d r3 =>
        (expectChar '/' r3).bind fun r4 =>
          (year4End r4).map fun y => (y, m, d)

/-- Calendar validation performed by the `datetime` constructor after a
successful regex match; a validation failure fails the whole format. -/
def validateTriple (t : Nat × Nat × Nat) : Option YMD :=
  if 1 ≤ t.1 ∧ t.1 ≤ 9999 ∧ 1 ≤ t.2.1 ∧ t.2.1 ≤ 12 ∧ 1 ≤ t.2.2 ∧ t.2.2 ≤ daysInMonth t.1 t.2.1 then
    some ⟨t.1, t.2.1, t.2.2⟩
  else none

/-- The fixed ordered format list of `post_process_and_validate`:
`("%Y-%m-%d", "%d %b %Y", "%B %d, %Y", "%d/%m/%Y", "%m/%d/%Y")`. -/
def strptimeFormats : List (List Char → Option (Nat × Nat × Nat)) :=
  [synYmd, synDbY, synBdY, synDmY, synMdY]

/-- First format that both matches syntactically and validates; models the
`for fmt in (...)` / `try: ... break / except: continue` loop. -/
def tryFormats (cs : List Char) : Option YMD :=
  strptimeFormats.findSome? fun syn => (syn cs).bind validateTriple

/-! ## `strftime("%Y-MM-DD")` and the post-validator -/

/-- `%Y` rendered as four zero-padded digits (parsed years are at most 9999,
for which this is exact). -/
def formatY4 (y : Nat) : List Char :=
  [digitChar (y / 1000 % 10), digitChar (y / 100 % 10), digitChar (y / 10 % 10), digitChar (y % 10)]

/-- Output of `datetime.strftime("%Y-MM-DD")` as written in the source: only
`%Y` is a directive, the trailing `MM-DD` is literal text. -/
def strftimeYMMDD (d : YMD) : List Char :=
  formatY4 d.year ++ ['-', 'M', 'M', '-', 'D', 'D']

/-- Date normalization applied to one string value of a date-named field:
reformat through the first matching format, otherwise leave unchanged. -/
def normalizeDateStr (s : String) : String :=
  match tryFormats s.data with
  | some d => ⟨strftimeYMMDD d⟩
  | none => s

/-- Does the key contain `"date"` case-insensitively (`"date" in key.lower()`)? -/
def keyHasDate (k : String) : Bool := containsSeq "date".data (k.data.map Char.toLower)

/-- Per-field action of the post-validator. -/
def processField (kv : String × Field) : String × Field :=
  match kv with
  | (k, .strF s) => if keyHasDate k then (k, .strF (normalizeDateStr s)) else (k, .strF s)
  | other => other

/-- `post_process_and_validate` (processor.py lines 162-174): non-dict inputs
pass through; in a dict, every string value of a field whose name contains
`"date"` is normalized through the format list. -/
def post_process_and_validate : Data → Data
  | .dict fs => .dict (fs.map processField)
  | d => d

/-! ## OCR extraction (`extract_text_with_paddleocr`, processor.py lines 77-93) -/

/-- Per-image outcome of `preprocess_image_for_ocr` + `paddle_ocr.ocr`:
either the recognized line list `result[0]` (each line giving its text and
confidence), a falsy result (`result` or `result[0]` is `None`/empty), or an
exception caught by the per-image `try`/`except`. -/
inductive OCROutcome where
  | ok (ls : List (String × ℚ))
  | noResult
  | failed (msg : String)
deriving Repr

/-- Lines recognized on one image (empty when recognition failed). -/
def linesOf : OCROutcome → List (String × ℚ)
  | .ok ls => ls
  | _ => []

/-- `OCR_CONFIDENCE_THRESHOLD = 0.80` (processor.py line 18). -/
def OCR_CONFIDENCE_THRESHOLD : ℚ := 80 / 100

/-- The confidence filter of lines 87-89:
`[line[1][0] for line in result[0] if line[1][1] > OCR_CONFIDENCE_THRESHOLD]`. -/
def highConfidenceTexts (ls : List (String × ℚ)) : List String :=
  (ls.filter fun l => OCR_CONFIDENCE_THRESHOLD < l.2).map Prod.fst

/-- `"\n".join(texts)` at character level. -/
def joinNL : List String → List Char
  | [] => []
  | [s] => s.data
  | s :: t => s.data ++ '\n' :: joinNL t

/-- The constant part of the page marker, `"--- TEXT FROM PAGE/IMAGE "`. -/
def markerChars : List Char := "--- TEXT FROM PAGE/IMAGE ".data

/-- The page separator written before image `i` (0-based):
`f"\n--- TEXT FROM PAGE/IMAGE \x7bi+1\x7d ---\n"`. -/
def pageSeparatorChars (i : Nat) : List Char :=
  '\n' :: markerChars ++ natDigits (i + 1) ++ [' ', '-', '-', '-', '\n']

/-- Text contributed by one image after its separator: nothing unless the
engine returned a truthy result with a truthy first element, in which case the
newline-join of the confidence-filtered texts. -/
def bodyChars : OCROutcome → List Char
  | .ok ls => if ls.isEmpty then [] else joinNL (highConfidenceTexts ls)
  | _ => []

/-- Character stream of `extract_text_with_paddleocr` starting at 0-based page
index `i`: for every image, append the separator, then the (possibly empty)
filtered text block. -/
def extractChars (i : Nat) : List OCROutcome → List Char
  | [] => []
  | o :: t => pageSeparatorChars i ++ bodyChars o ++ extractChars (i + 1) t

/-- `extract_text_with_paddleocr` as a string, given the per-image outcomes. -/
def extract_text_with_paddleocr (outs : List OCROutcome) : String :=
  ⟨extractChars 0 outs⟩

/-! ## The structuring engine (`structure_data_with_master_prompt`) -/

/-- A `requests` response: final status code and the result of
`response.json()` modelled as a JSON object with string fields (the Ollama
generate payload), or the exception message if the body is not JSON. -/
structure HttpResponse where
  statusCode : Nat
  jsonBody : Except String (List (String × String))
deriving Repr

/-- First value bound to `key` in a JSON object (Python `dict.get`). -/
def lookupKey (key : String) : List (String × String) → Option String
  | [] => none
  | (k, v) :: t => if k = key then some v else lookupKey key t

/-- The fixed instruction text of the master prompt (the f-string of
processor.py lines 97-149 up to the interpolated `raw_text`); its exact
content is inert data as far as the pipeline logic is concerned. -/
def masterPromptHeader : String :=
  "\n    You are a world-class data extraction expert. Your task is to analyze the provided document image(s) and raw OCR text to create a single, perfectly structured JSON output.\n\n    Follow these steps meticulously:\n    1.  **Identify Document**: First, examine the images and text to identify the document type.\n    2.  **Select Template**: Choose the single best JSON template from the \"Available Templates\" list below that matches the identified document.\n    3.  **Verify & Extract**: Use the images to visually verify and correct the `Raw OCR Text`. Extract all data needed to populate your chosen template.\n    4.  **Populate Standard Fields**: Fill in the main fields of your chosen template. Format dates as YYYY-MM-DD and country codes as 3-letter ISO 3166-1 Alpha-3 codes (e.g., \"USA\", \"PHL\", \"IND\", \"ARE\"). Use `null` if a field is not present.\n    5.  **Populate `additional_data`**: If you find any other important, labeled data that does not fit in the standard fields, add it as a key-value pair inside the `additional_data` object.\n    6.  **Final Output**: Your response must be ONLY the single, minified JSON object based on your chosen template. Do not include explanations or markdown.\n\n    --- Available Templates (Choose ONE) ---\n\n    **Template for \"Passport\":**\n    \x7b\n      \"document_type\": \"passport\", \"full_name\": null, \"surname\": null, \"given_names\": null, \"passport_number\": null,\n      \"nationality\": null, \"issuing_country\": null, \"gender\": null, \"date_of_birth\": null,\n      \"date_of_issue\": null, \"expiry_date\": null, \"place_of_birth\": null, \"issuing_authority\": null,\n      \"mrz\": null, \"additional_data\": \x7b\x7d\n    \x7d\n\n    **Template for \"Driving License\":**\n    \x7b\n      \"document_type\": \"driving_license\", \"full_name\": null, \"license_number\": null, \"nationality\": null,\n      \"gender\": null, \"date_of_birth\": null, \"address\": null, \"date_of_issue\": null, \"expiry_date\": null,\n      \"vehicle_classes\": [], \"conditions\": null, \"agency_code\": null, \"serial_number\": null,\n      \"additional_data\": \x7b\x7d\n    \x7d\n\n    **Template for \"Aadhaar Card\":**\n    \x7b\n      \"document_type\": \"aadhaar_card\", \"full_name\": null, \"date_of_birth\": null, \"gender\": null,\n      \"aadhaar_number\": null, \"virtual_id\": null, \"address\": null,\n      \"additional_data\": \x7b\x7d\n    \x7d\n    \n    **Template for \"Emirates ID\":**\n    \x7b\n      \"document_type\": \"emirates_id\", \"full_name\": null, \"id_number\": null, \"nationality\": null,\n      \"address\": null, \"date_of_birth\": null, \"expiry_date\": null,\n      \"additional_data\": \x7b\x7d\n    \x7d\n\n    **Template for \"Generic ID / Other\":**\n    \x7b\n      \"document_type\": \"other\", \"document_title\": null, \"full_name\": null, \"id_number\": null,\n      \"address\": null, \"organization\": null, \"date_of_issue\": null, \"expiry_date\": null, \"date_of_birth\": null,\n      \"additional_data\": \x7b\x7d\n    \x7d\n\n    --- Raw OCR Text (for guidance, verify against images) ---\n    "

/-- The full master prompt with the raw OCR text interpolated. -/
def master_prompt (raw_text : String) : String :=
  masterPromptHeader ++ raw_text ++ "\n    "

/-- Prefix of every error message produced by the engine's `except` clause. -/
def llmErrText : String := "The language model failed to structure the text. Error: "

/-- The error-sentinel record returned on any exception in the engine. -/
def errRecord (e : String) : Data := .dict [("error", .strF (llmErrText ++ e))]

/-- Outcome of one page render loop of `fitz`: the page images produced before
a possible exception, and the exception message if one was raised (a wholly
corrupt document yields no pages and an exception). -/
structure PdfRender where
  pages : List Bytes
  failed : Option String
deriving Repr

/-- Per-image outcome of the face-detection body: `cv2.imdecode` returning
`None`, an exception, or the (possibly empty) candidate-rectangle list of
`detectMultiScale`. -/
inductive FaceScan where
  | noImage
  | failed (msg : String)
  | found (faces : List (Nat × Nat × Nat × Nat))
deriving Repr

/-- Bounding-box area `f[2]*f[3]` of a candidate `(x, y, w, h)`. -/
def rectArea (f : Nat × Nat × Nat × Nat) : Nat := f.2.2.1 * f.2.2.2

/-- The candidate selected by
`sorted(faces, key=lambda f: f[2]*f[3], reverse=True)[0]`: the earliest
candidate of maximal area (Python's sort is stable). -/
def largestFace (f : Nat × Nat × Nat × Nat) (fs : List (Nat × Nat × Nat × Nat)) :
    Nat × Nat × Nat × Nat :=
  fs.foldl (fun best g => if rectArea best < rectArea g then g else best) f

/-- All external collaborators of the pipeline, as explicit oracles.
Exceptions raised by a collaborator are `Except.error` / dedicated
constructors with the exception text. -/
structure Env where
  /-- `fitz.open` + per-page `get_pixmap(dpi=300).tobytes("jpeg")`. -/
  renderPdf : Bytes → PdfRender
  /-- `normalize_image`: total, returns the input bytes on any decode error. -/
  normalize : Bytes → Bytes
  /-- `preprocess_image_for_ocr` + `paddle_ocr.ocr` on one image. -/
  ocr : Bytes → OCROutcome
  /-- `base64.b64encode(img).decode("utf-8")`. -/
  b64 : Bytes → String
  /-- `requests.post(OLLAMA_API_URL, json={...}, timeout=600)`: transport
  exception or a response. -/
  http : String → List String → Except String HttpResponse
  /-- Message of the `HTTPError` raised by `raise_for_status` for an error
  status code. -/
  statusMsg : Nat → String
  /-- `json.loads` applied to the model's response string. -/
  loads : String → Except String Data
  /-- `json.dumps` of the final structured data. -/
  dumps : Data → String
  /-- decode/grayscale/`detectMultiScale` on one image. -/
  faceScan : Bytes → FaceScan
  /-- crop `img[y:y+h, x:x+w]` + `cv2.imencode(".jpg", ...)`. -/
  cropFace : Bytes → Nat × Nat × Nat × Nat → Bytes
  /-- `save_processed_document(doc_type, json_data, original_images, face)`,
  returning the new row id. -/
  save : String → String → List Bytes → Option Bytes → Nat
  /-- Python `"error" in v` for a non-dict structuring result `v`. -/
  nonDictHasError : Field → Bool
  /-- The error value extracted (or the exception raised) when aborting on a
  non-dict structuring result `v`. -/
  nonDictErrorVal : Field → Field

/-- `structure_data_with_master_prompt` (processor.py lines 95-160): POST the
master prompt and the images; `raise_for_status` raises exactly for the
client- and server-error status codes 400-599 (statuses outside that range,
including the 600-999 ones `http.client` still delivers, do not raise); parse
the body; `json.loads` the `response` field, with `"\x7b\x7d"` as default
when the key is missing; any exception on the way is caught and turned into
the error-sentinel record. -/
def structure_data_with_master_prompt (env : Env) (raw_text : String)
    (base64_images : List String) : Data :=
  match env.http (master_prompt raw_text) base64_images with
  | .error e => errRecord e
  | .ok resp =>
    if 400 ≤ resp.statusCode ∧ resp.statusCode < 600 then
      errRecord (env.statusMsg resp.statusCode)
    else
      match resp.jsonBody with
      | .error e => errRecord e
      | .ok obj =>
        match env.loads ((lookupKey "response" obj).getD "\x7b\x7d") with
        | .error e => errRecord e
        | .ok d => d

/-- Python `"error" in structured_data` (substring/membership semantics on a
non-dict value are delegated to the environment). -/
def hasErrorKey (env : Env) : Data → Bool
  | .dict fs => fs.any fun f => f.1 == "error"
  | .notDict v => env.nonDictHasError v

/-- The value `structured_data["error"]` used in the abort message. -/
def errorKeyVal (env : Env) : Data → Field
  | .dict fs => (fs.findSome? fun f => if f.1 = "error" then some f.2 else none).getD (.strF "")
  | .notDict v => env.nonDictErrorVal v

/-! ## File decoding and face location -/

/-- `filename.lower().endswith(".pdf")`. -/
def isPdfFilename (filename : String) : Bool :=
  ".pdf".data.isSuffixOf (filename.data.map Char.toLower)

/-- `process_file_input` (processor.py lines 60-75): a PDF contributes its
rendered pages, each normalized, in page order — pages rendered before a
mid-loop exception are kept and the exception is swallowed; any other file
contributes exactly one normalized image. -/
def process_file_input (env : Env) (file_bytes : Bytes) (filename : String) : List Bytes :=
  if isPdfFilename filename then (env.renderPdf file_bytes).pages.map env.normalize
  else [env.normalize file_bytes]

/-- `detect_and_crop_face` (processor.py lines 176-193): scan the images in
order; skip undecodable images and per-image exceptions; on the first image
with a nonempty candidate list, return the encoded crop of the largest
candidate; otherwise return `none`. -/
def detect_and_crop_face (env : Env) : List Bytes → Option Bytes
  | [] => none
  | b :: rest =>
    match env.faceScan b with
    | .found (f :: fs) => some (env.cropFace b (largestFace f fs))
    | _ => detect_and_crop_face env rest

/-! ## The orchestrating task (`process_documents_task`) -/

/-- Pipeline stages that perform external work, in the order the task reaches
them; the task's trace records which were reached. -/
inductive Stage where
  | ocrStage
  | llmStage
  | validateStage
  | faceStage
  | saveStage
deriving DecidableEq, Repr

/-- The arguments of the final `save_processed_document` call plus the row id
it returned: the persisted record of a successful run. -/
structure SavedDoc where
  docType : String
  jsonData : String
  originalImages : List Bytes
  faceImage : Option Bytes
  docId : Nat
deriving DecidableEq, Repr

/-- Terminal state of one run: SUCCESS with the persisted record, or FAILURE
carrying the raised error value. -/
inductive RunResult where
  | success (saved : SavedDoc)
  | failure (err : Field)
deriving DecidableEq, Repr

/-- The message of the fail-fast exception of processor.py line 214. -/
def noImagesMsg : String := "No valid images could be processed from the provided file(s)."

/-- Key order used by `sorted(file_contents_dict.keys())`: code-point
lexicographic comparison of the submission keys. -/
def keyLe (a b : String × String × Bytes) : Prop := lexLe a.1.data b.1.data = true

instance : DecidableRel keyLe := fun a b =>
  inferInstanceAs (Decidable (lexLe a.1.data b.1.data = true))

/-- The submitted entries in lexicographic key order (Python dict keys are
unique, so stability is immaterial). -/
def sortedEntries (files : List (String × String × Bytes)) : List (String × String × Bytes) :=
  files.insertionSort keyLe

/-- All decoded images of the submission, in submission-key order with each
file's contribution concatenated in place (lines 206-211). -/
def allImageBytes (env : Env) (files : List (String × String × Bytes)) : List Bytes :=
  (sortedEntries files).flatMap fun e => process_file_input env e.2.2 e.2.1

/-- The original (pre-decoding) bytes collected into `original_images_to_save`,
one per file, appended before decoding is attempted (lines 204-211). -/
def originalImages (files : List (String × String × Bytes)) : List Bytes :=
  (sortedEntries files).map fun e => e.2.2

/-- The structuring result the orchestrator computes for a submission: the
aggregated OCR text of all decoded images and their encodings are fed to the
structuring engine. -/
def structuredOf (env : Env) (files : List (String × String × Bytes)) : Data :=
  structure_data_with_master_prompt env
    (extract_text_with_paddleocr ((allImageBytes env files).map env.ocr))
    ((allImageBytes env files).map env.b64)

/-- `process_documents_task` (processor.py lines 197-238) as a pure function:
the run result together with the ordered trace of stages reached.  The files
dict is the association list `submission key ↦ (filename, bytes)`. -/
def process_documents_task (env : Env) (files : List (String × String × Bytes))
    (doc_type : String) : RunResult × List Stage :=
  if (allImageBytes env files).isEmpty then (.failure (.strF noImagesMsg), [])
  else
    let structured_data := structuredOf env files
    if hasErrorKey env structured_data then
      (.failure (errorKeyVal env structured_data), [.ocrStage, .llmStage])
    else
      let final_data := post_process_and_validate structured_data
      let face_image := detect_and_crop_face env (allImageBytes env files)
      let json_data := env.dumps final_data
      let doc_id := env.save doc_type json_data (originalImages files) face_image
      (.success ⟨doc_type, json_data, originalImages files, face_image, doc_id⟩,
        [.ocrStage, .llmStage, .validateStage, .faceStage, .saveStage])

/-! ## Concrete environments and inputs used to instantiate theorems -/

/-- A benign environment: PDFs render to nothing, OCR sees nothing, the model
endpoint is unreachable. -/
def envBase : Env where
  renderPdf := fun _ => ⟨[], none⟩
  normalize := id
  ocr := fun _ => .noResult
  b64 := fun _ => ""
  http := fun _ _ => .error "connection refused"
  statusMsg := fun n => "HTTP error " ++ String.mk (natDigits n)
  loads := fun s => if s = "\x7b\x7d" then .ok (.dict []) else .error "invalid JSON"
  dumps := fun _ => "dumped"
  faceScan := fun _ => .noImage
  cropFace := fun _ _ => [7]
  save := fun _ _ _ _ => 42
  nonDictHasError := fun _ => false
  nonDictErrorVal := fun v => v

/-- Environment whose face classifier reports two candidates, the second one
larger. -/
def envFace : Env :=
  { envBase with faceScan := fun _ => .found [(0, 0, 2, 2), (0, 0, 3, 3)] }

/-- Environment whose model endpoint replies with status 301 and a JSON body;
`raise_for_status` does not raise for it. -/
def env301 : Env :=
  { envBase with
    http := fun _ _ => .ok ⟨301, .ok [("response", "x")]⟩
    loads := fun _ => .ok (.dict [("document_type", .strF "other")]) }

/-- Environment whose model endpoint replies with status 600 and a JSON body:
`http.client` delivers status lines 100-999, and `raise_for_status` raises
only for 400-599, so such a reply does not raise either. -/
def env600 : Env :=
  { envBase with
    http := fun _ _ => .ok ⟨600, .ok [("response", "x")]⟩
    loads := fun _ => .ok (.dict [("document_type", .strF "other")]) }

/-- Environment whose model endpoint replies 200 with a JSON body that lacks
the `"response"` key. -/
def env200NoResp : Env :=
  { envBase with http := fun _ _ => .ok ⟨200, .ok [("done", "1")]⟩ }

/-- Environment for a fully successful run (endpoint replies 200 with an
empty JSON body, so the default `"\x7b\x7d"` payload is parsed). -/
def envOk : Env :=
  { envBase with http := fun _ _ => .ok ⟨200, .ok []⟩ }

/-- Environment whose PDF renderer produces three pages. -/
def envPdf : Env :=
  { envBase with renderPdf := fun _ => ⟨[[1], [2], [3]], none⟩ }

/-- A two-file submission: a PDF that decodes to zero pages under `envOk`,
and a plain image, with keys out of order. -/
def twoFiles : List (String × String × Bytes) :=
  [("file_1", "b.pdf", [2]), ("file_0", "a.jpg", [1])]

/-! ## Supporting lemmas: the reformatted date string matches no format -/

theorem digitChar_facts (k : Nat) (h : k < 10) :
    (digitChar k).isDigit = true ∧ (digitChar k).isWhitespace = false ∧
    (digitChar k).toLower = digitChar k ∧
    digitChar k ≠ '/' ∧ digitChar k ≠ '-' ∧ digitChar k ≠ ',' ∧ digitChar k ≠ '\n' := by
  interval_cases k <;> exact ⟨by decide, by decide, by decide, by decide, by decide, by decide,
    by decide⟩

theorem tryAlts_eq_none {α : Type} {alts : List (Nat × List Char)}
    {k : Nat → List Char → Option α} (h : ∀ p ∈ alts, k p.1 p.2 = none) :
    tryAlts alts k = none := by
  induction alts with
  | nil => rfl
  | cons a t ih =>
    obtain ⟨v, r⟩ := a
    have hk : k v r = none := h (v, r) (List.mem_cons_self _ _)
    simpa [tryAlts, hk] using ih fun p hp => h p (List.mem_cons_of_mem _ hp)

theorem mem_dayAlts_rest {c1 c2 : Char} {cs : List Char} {p : Nat × List Char}
    (h : p ∈ dayAlts (c1 :: c2 :: cs)) : p.2 = cs ∨ p.2 = c2 :: cs := by
  unfold dayAlts at h
  simp only [List.mem_append] at h
  rcases h with ((h | h) | h) | h <;> (split at h <;> simp_all)

theorem mem_monthAlts_rest {c1 c2 : Char} {cs : List Char} {p : Nat × List Char}
    (h : p ∈ monthAlts (c1 :: c2 :: cs)) : p.2 = cs ∨ p.2 = c2 :: cs := by
  unfold monthAlts at h
  simp only [List.mem_append] at h
  rcases h with (h | h) | h <;> (split at h <;> simp_all)

theorem ne_digitChar_of_not_digit {c : Char} (hc : c.isDigit = false) (k : Nat) (h : k < 10) :
    c ≠ digitChar k := by
  intro he
  rw [he, (digitChar_facts k h).1] at hc
  exact absurd hc (by simp)

theorem matchNameIn_fullMonths_digit (k : Nat) (h : k < 10) (cs : List Char) :
    matchNameIn fullMonths (digitChar k :: cs) = none := by
  have ht := (digitChar_facts k h).2.2.1
  have hj := ne_digitChar_of_not_digit (by decide : ('j' : Char).isDigit = false) k h
  have hf := ne_digitChar_of_not_digit (by decide : ('f' : Char).isDigit = false) k h
  have hm := ne_digitChar_of_not_digit (by decide : ('m' : Char).isDigit = false) k h
  have ha := ne_digitChar_of_not_digit (by decide : ('a' : Char).isDigit = false) k h
  have hs := ne_digitChar_of_not_digit (by decide : ('s' : Char).isDigit = false) k h
  have ho := ne_digitChar_of_not_digit (by decide : ('o' : Char).isDigit = false) k h
  have hn := ne_digitChar_of_not_digit (by decide : ('n' : Char).isDigit = false) k h
  have hd := ne_digitChar_of_not_digit (by decide : ('d' : Char).isDigit = false) k h
  simp [matchNameIn, fullMonths, List.findSome?, isPre, ht, hj, hf, hm, ha, hs, ho, hn, hd]

/-- The four characters of the reformatted year followed by the literal
`"-MM-DD"`: explicit cons form. -/
theorem strftimeYMMDD_eq (d : YMD) :
    strftimeYMMDD d =
      digitChar (d.year / 1000 % 10) :: digitChar (d.year / 100 % 10) ::
      digitChar (d.year / 10 % 10) :: digitChar (d.year % 10) ::
      '-' :: 'M' :: 'M' :: '-' :: 'D' :: 'D' :: [] := rfl

theorem synYmd_bug (d : YMD) : synYmd (strftimeYMMDD d) = none := by
  have h1 := (digitChar_facts (d.year / 1000 % 10) (Nat.mod_lt _ (by omega))).1
  have h2 := (digitChar_facts (d.year / 100 % 10) (Nat.mod_lt _ (by omega))).1
  have h3 := (digitChar_facts (d.year / 10 % 10) (Nat.mod_lt _ (by omega))).1
  have h4 := (digitChar_facts (d.year % 10) (Nat.mod_lt _ (by omega))).1
  simp [synYmd, strftimeYMMDD_eq, digits4, h1, h2, h3, h4, expectChar, monthAlts, tryAlts]

theorem synDbY_bug (d : YMD) : synDbY (strftimeYMMDD d) = none := by
  rw [synDbY, strftimeYMMDD_eq]
  apply tryAlts_eq_none
  intro p hp
  have h2 := (digitChar_facts (d.year / 100 % 10) (Nat.mod_lt _ (by omega))).2.1
  have h3 := (digitChar_facts (d.year / 10 % 10) (Nat.mod_lt _ (by omega))).2.1
  rcases mem_dayAlts_rest hp with h | h <;> rw [h] <;> simp [wsPlus, h2, h3]

theorem synBdY_bug (d : YMD) : synBdY (strftimeYMMDD d) = none := by
  rw [synBdY, strftimeYMMDD_eq,
    matchNameIn_fullMonths_digit (d.year / 1000 % 10) (Nat.mod_lt _ (by omega))]
  rfl

theorem synDmY_bug (d : YMD) : synDmY (strftimeYMMDD d) = none := by
  rw [synDmY, strftimeYMMDD_eq]
  apply tryAlts_eq_none
  intro p hp
  have h2 := (digitChar_facts (d.year / 100 % 10) (Nat.mod_lt _ (by omega))).2.2.2.1
  have h3 := (digitChar_facts (d.year / 10 % 10) (Nat.mod_lt _ (by omega))).2.2.2.1
  rcases mem_dayAlts_rest hp with h | h <;> rw [h] <;> simp [expectChar, h2, h3]

theorem synMdY_bug (d : YMD) : synMdY (strftimeYMMDD d) = none := by
  rw [synMdY, strftimeYMMDD_eq]
  apply tryAlts_eq_none
  intro p hp
  have h2 := (digitChar_facts (d.year / 100 % 10) (Nat.mod_lt _ (by omega))).2.2.2.1
  have h3 := (digitChar_facts (d.year / 10 % 10) (Nat.mod_lt _ (by omega))).2.2.2.1
  rcases mem_monthAlts_rest hp with h | h <;> rw [h] <;> simp [expectChar, h2, h3]

/-- No strptime format matches the malformed reformat output `"yyyy-MM-DD"`. -/
theorem tryFormats_strftimeYMMDD (d : YMD) : tryFormats (strftimeYMMDD d) = none := by
  simp [tryFormats, strptimeFormats, List.findSome?, synYmd_bug, synDbY_bug, synBdY_bug,
    synDmY_bug, synMdY_bug]

theorem normalizeDateStr_idem (s : String) :
    normalizeDateStr (normalizeDateStr s) = normalizeDateStr s := by
  unfold normalizeDateStr
  cases h : tryFormats s.data with
  | none => simp [h]
  | some d =>
    have hb : (String.mk (strftimeYMMDD d)).data = strftimeYMMDD d := rfl
    simp [h, hb, tryFormats_strftimeYMMDD]

theorem processField_idem (kv : String × Field) :
    processField (processField kv) = processField kv := by
  obtain ⟨k, v⟩ := kv
  cases v with
  | otherF n => rfl
  | strF s =>
    by_cases h : keyHasDate k = true <;>
      simp [processField, h, normalizeDateStr_idem]

/-! ## Supporting lemmas: counting page markers -/

theorem markerChars_eq :
    markerChars = ['-', '-', '-', ' ', 'T', 'E', 'X', 'T', ' ', 'F', 'R', 'O', 'M', ' ',
      'P', 'A', 'G', 'E', '/', 'I', 'M', 'A', 'G', 'E', ' '] := by decide

theorem newline_not_mem_marker : '\n' ∉ markerChars := by decide

theorem isPre_self_append (p z : List Char) : isPre p (p ++ z) = true := by
  induction p with
  | nil => rfl
  | cons a t ih => simp [isPre, ih]

theorem isPre_append_newline {p : List Char} (zs : List Char) {ys : List Char}
    (hnl : '\n' ∉ p) (hys : ys = [] ∨ ∃ t, ys = '\n' :: t) :
    isPre p (zs ++ ys) = isPre p zs := by
  induction p generalizing zs with
  | nil => rfl
  | cons a p ih =>
    cases zs with
    | nil =>
      have ha : a ≠ '\n' := fun h => hnl (h ▸ List.mem_cons_self _ _)
      rcases hys with h | ⟨t, h⟩ <;> subst h
      · rfl
      · simp [isPre, ha]
    | cons z zt =>
      have : '\n' ∉ p := fun h => hnl (List.mem_cons_of_mem _ h)
      simp [isPre, ih zt this]

theorem countSub_append_newline {p : List Char} (xs : List Char) {ys : List Char}
    (hnl : '\n' ∉ p) (hys : ys = [] ∨ ∃ t, ys = '\n' :: t) :
    countSub p (xs ++ ys) = countSub p xs + countSub p ys := by
  induction xs with
  | nil => simp [countSub]
  | cons c t ih =>
    have hpre : isPre p (c :: (t ++ ys)) = isPre p (c :: t) := by
      simpa using isPre_append_newline (c :: t) hnl hys
    show (if isPre p (c :: (t ++ ys)) = true then 1 else 0) + countSub p (t ++ ys) =
      (if isPre p (c :: t) = true then 1 else 0) + countSub p t + countSub p ys
    rw [hpre, ih]
    omega

theorem countSub_append_of_ne_head {a : Char} {q : List Char} {xs z : List Char}
    (hxs : ∀ c ∈ xs, c ≠ a) :
    countSub (a :: q) (xs ++ z) = countSub (a :: q) z := by
  induction xs with
  | nil => rfl
  | cons c t ih =>
    have hc : (a == c) = false := by
      simp [Ne.symm (hxs c (List.mem_cons_self _ _))]
    simp only [List.cons_append, countSub, isPre, hc, Bool.false_and, if_neg Bool.false_ne_true]
    exact Nat.zero_add _ ▸ ih fun c hc' => hxs c (List.mem_cons_of_mem _ hc')

theorem countSub_newline_cons (l : List Char) :
    countSub markerChars ('\n' :: l) = countSub markerChars l := by
  simp [countSub, markerChars_eq, isPre]

theorem countSub_marker_self_block (ds : List Char) (hds : ∀ c ∈ ds, c ≠ '-') :
    countSub markerChars (markerChars ++ (ds ++ [' ', '-', '-', '-'])) = 1 := by
  have h1 : countSub markerChars (ds ++ [' ', '-', '-', '-']) = 0 := by
    rw [markerChars_eq, countSub_append_of_ne_head hds]
    decide
  rw [markerChars_eq] at h1 ⊢
  simp only [List.cons_append, List.nil_append, countSub, isPre]
  simp [h1]

/-- Every character `str(n)` can produce is a decimal digit. -/
theorem natDigitsAux_digits (fuel : Nat) : ∀ n, ∀ c ∈ natDigitsAux fuel n,
    ∃ k, k < 10 ∧ c = digitChar k := by
  induction fuel with
  | zero => intro n c hc; simp [natDigitsAux] at hc
  | succ fuel ih =>
    intro n c hc
    unfold natDigitsAux at hc
    split at hc
    · simp at hc
      exact ⟨n, by omega, hc⟩
    · rcases List.mem_append.mp hc with h | h
      · exact ih (n / 10) c h
      · simp at h
        exact ⟨n % 10, Nat.mod_lt _ (by omega), h⟩

theorem natDigits_no_dash_newline (n : Nat) : ∀ c ∈ natDigits n, c ≠ '-' ∧ c ≠ '\n' := by
  intro c hc
  obtain ⟨k, hk, rfl⟩ := natDigitsAux_digits _ _ c hc
  exact ⟨(digitChar_facts k hk).2.2.2.2.1, (digitChar_facts k hk).2.2.2.2.2.2⟩

/-- One separator-plus-body block contains exactly one marker occurrence,
provided the body contains none and the block is followed by a page boundary. -/
theorem countSub_sep_body (ds body rest : List Char)
    (hds : ∀ c ∈ ds, c ≠ '-' ∧ c ≠ '\n')
    (hbody : countSub markerChars body = 0)
    (hrest : rest = [] ∨ ∃ t, rest = '\n' :: t) :
    countSub markerChars
        (('\n' :: markerChars ++ ds ++ [' ', '-', '-', '-', '\n']) ++ (body ++ rest)) =
      1 + countSub markerChars rest := by
  have hshape : '\n' :: markerChars ++ ds ++ [' ', '-', '-', '-', '\n'] ++ (body ++ rest) =
      '\n' :: ((markerChars ++ (ds ++ [' ', '-', '-', '-'])) ++ ('\n' :: (body ++ rest))) := by
    simp [List.append_assoc]
  rw [hshape, countSub_newline_cons,
    countSub_append_newline _ newline_not_mem_marker (Or.inr ⟨_, rfl⟩),
    countSub_marker_self_block ds (fun c hc => (hds c hc).1),
    countSub_newline_cons,
    countSub_append_newline _ newline_not_mem_marker hrest, hbody]
  omega

theorem extractChars_shape (i : Nat) (outs : List OCROutcome) :
    extractChars i outs = [] ∨ ∃ t, extractChars i outs = '\n' :: t := by
  cases outs with
  | nil => exact Or.inl rfl
  | cons o t => exact Or.inr ⟨_, rfl⟩

/-- A text survives into the filtered list exactly when some recognized line
carries that text with confidence strictly above the threshold. -/
theorem mem_highConfidenceTexts {ls : List (String × ℚ)} {t : String} :
    t ∈ highConfidenceTexts ls ↔ ∃ c, (t, c) ∈ ls ∧ OCR_CONFIDENCE_THRESHOLD < c := by
  simp only [highConfidenceTexts, List.mem_map, List.mem_filter]
  constructor
  · rintro ⟨⟨t', c⟩, ⟨hm, hc⟩, rfl⟩
    exact ⟨c, hm, by simpa using hc⟩
  · rintro ⟨c, hm, hc⟩
    exact ⟨(t, c), ⟨hm, by simpa using hc⟩, rfl⟩

theorem countSub_joinNL (ts : List String)
    (h : ∀ t ∈ ts, countSub markerChars t.data = 0) :
    countSub markerChars (joinNL ts) = 0 := by
  induction ts with
  | nil => rfl
  | cons s t ih =>
    cases t with
    | nil => exact h s (List.mem_cons_self _ _)
    | cons s2 t2 =>
      show countSub markerChars (s.data ++ '\n' :: joinNL (s2 :: t2)) = 0
      rw [countSub_append_newline _ newline_not_mem_marker (Or.inr ⟨_, rfl⟩),
        countSub_newline_cons, ih fun u hu => h u (List.mem_cons_of_mem _ hu),
        h s (List.mem_cons_self _ _)]

theorem countSub_body_of_lines (o : OCROutcome)
    (h : ∀ l ∈ linesOf o, countSub markerChars l.1.data = 0) :
    countSub markerChars (bodyChars o) = 0 := by
  cases o with
  | noResult => rfl
  | failed m => rfl
  | ok ls =>
    show countSub markerChars (if ls.isEmpty then [] else joinNL (highConfidenceTexts ls)) = 0
    split
    · rfl
    · refine countSub_joinNL _ fun t ht => ?_
      obtain ⟨c, hc, -⟩ := mem_highConfidenceTexts.mp ht
      exact h (t, c) hc

/-- Marker count of the aggregated text from page `i` on: one per page, given
that no recognized line contains the marker string. -/
theorem countSub_extractChars (outs : List OCROutcome)
    (h : ∀ o ∈ outs, ∀ l ∈ linesOf o, countSub markerChars l.1.data = 0) :
    ∀ i, countSub markerChars (extractChars i outs) = outs.length := by
  induction outs with
  | nil => intro i; rfl
  | cons o t ih =>
    intro i
    have hbody := countSub_body_of_lines o (h o (List.mem_cons_self _ _))
    have hds := natDigits_no_dash_newline (i + 1)
    have hrest := extractChars_shape (i + 1) t
    show countSub markerChars
      (pageSeparatorChars i ++ bodyChars o ++ extractChars (i + 1) t) = t.length + 1
    rw [List.append_assoc, pageSeparatorChars,
      countSub_sep_body (natDigits (i + 1)) (bodyChars o) (extractChars (i + 1) t)
        hds hbody hrest,
      ih (fun o' ho' => h o' (List.mem_cons_of_mem _ ho')) (i + 1)]
    omega

/-- Splitting the aggregated text at page boundary `n`. -/
theorem extractChars_take_drop (outs : List OCROutcome) :
    ∀ n j, extractChars j outs =
      extractChars j (outs.take n) ++ extractChars (j + n) (outs.drop n) := by
  induction outs with
  | nil => intro n j; simp [extractChars]
  | cons o t ih =>
    intro n j
    cases n with
    | zero => simp [extractChars]
    | succ n =>
      show pageSeparatorChars j ++ bodyChars o ++ extractChars (j + 1) t =
        pageSeparatorChars j ++ bodyChars o ++ extractChars (j + 1) (t.take n) ++
          extractChars (j + (n + 1)) (t.drop n)
      rw [show j + (n + 1) = (j + 1) + n from by omega, ih n (j + 1)]
      simp [List.append_assoc]

/-! ## Supporting lemmas: lexicographic key order and face selection -/

theorem lexLe_total : ∀ a b : List Char, lexLe a b = true ∨ lexLe b a = true := by
  intro a
  induction a with
  | nil => intro b; exact Or.inl rfl
  | cons x xs ih =>
    intro b
    cases b with
    | nil => exact Or.inr rfl
    | cons y ys =>
      by_cases h1 : x.val.toNat < y.val.toNat
      · exact Or.inl (by simp [lexLe, h1])
      · by_cases h2 : y.val.toNat < x.val.toNat
        · exact Or.inr (by simp [lexLe, h2])
        · rcases ih ys with h | h
          · exact Or.inl (by simp [lexLe, h1, h2, h])
          · exact Or.inr (by simp [lexLe, h1, h2, h])

theorem lexLe_trans : ∀ a b c : List Char,
    lexLe a b = true → lexLe b c = true → lexLe a c = true := by
  intro a
  induction a with
  | nil => intro b c _ _; rfl
  | cons x xs ih =>
    intro b c hab hbc
    cases b with
    | nil => simp [lexLe] at hab
    | cons y ys =>
      cases c with
      | nil => simp [lexLe] at hbc
      | cons z zs =>
        simp only [lexLe] at hab hbc ⊢
        by_cases hxy : x.val.toNat < y.val.toNat
        · by_cases hyz : y.val.toNat < z.val.toNat
          · rw [if_pos (by omega)]
          · rw [if_neg hyz] at hbc
            split at hbc
            · simp at hbc
            · rw [if_pos (by omega)]
        · rw [if_neg hxy] at hab
          split at hab
          · simp at hab
          · by_cases hyz : y.val.toNat < z.val.toNat
            · rw [if_pos (by omega)]
            · rw [if_neg hyz] at hbc
              split at hbc
              · simp at hbc
              · rw [if_neg (by omega), if_neg (by omega)]
                exact ih ys zs hab hbc

instance : IsTotal (String × String × Bytes) keyLe :=
  ⟨fun a b => lexLe_total a.1.data b.1.data⟩

instance : IsTrans (String × String × Bytes) keyLe :=
  ⟨fun a b c => lexLe_trans a.1.data b.1.data c.1.data⟩

theorem rectArea_le_largestFace_self (fs : List (Nat × Nat × Nat × Nat)) :
    ∀ f, rectArea f ≤ rectArea (largestFace f fs) := by
  induction fs with
  | nil => intro f; exact le_refl _
  | cons g t ih =>
    intro f
    have h : rectArea f ≤ rectArea (if rectArea f < rectArea g then g else f) := by
      split <;> omega
    exact le_trans h (ih _)

theorem rectArea_le_largestFace (f : Nat × Nat × Nat × Nat)
    (fs : List (Nat × Nat × Nat × Nat)) :
    ∀ g ∈ f :: fs, rectArea g ≤ rectArea (largestFace f fs) := by
  induction fs generalizing f with
  | nil =>
    intro g hg
    rcases List.mem_cons.mp hg with rfl | h
    · exact le_refl _
    · simp at h
  | cons g' t ih =>
    intro g hg
    have hs1 : rectArea f ≤ rectArea (if rectArea f < rectArea g' then g' else f) := by
      split <;> omega
    have hs2 : rectArea g' ≤ rectArea (if rectArea f < rectArea g' then g' else f) := by
      split <;> omega
    rcases List.mem_cons.mp hg with rfl | hg'
    · exact le_trans hs1 (rectArea_le_largestFace_self t _)
    rcases List.mem_cons.mp hg' with rfl | hg2
    · exact le_trans hs2 (rectArea_le_largestFace_self t _)
    · exact ih _ g (List.mem_cons_of_mem _ hg2)

/-! ## Claim theorems -/

/-- C1: evaluating the post-validator of the source at the failing input: the
date field `"15/03/1990"` is parsed by the fourth format (`"%d/%m/%Y"`), but
because the reformatting string of processor.py line 170 is `"%Y-MM-DD"` — in
which only `%Y` is a directive and `MM-DD` is literal text — the field is
overwritten with `"1990-MM-DD"` and not with the ISO form `"1990-03-15"` the
claim (and the spec's stated intent) requires. -/
theorem c1_date_reformat_is_literal_MM_DD :
    post_process_and_validate (.dict [("date_of_birth", .strF "15/03/1990")]) =
        .dict [("date_of_birth", .strF "1990-MM-DD")] ∧
      post_process_and_validate (.dict [("date_of_birth", .strF "15/03/1990")]) ≠
        .dict [("date_of_birth", .strF "1990-03-15")] := by
  constructor <;> decide

/-- C2 counterexample: a single image whose sole recognized line is itself a
page-marker string (confidence 0.9) yields an aggregated text with two marker
occurrences, so the marker count (2) differs from the image count (1) and a
marker numbered 2 appears for a one-image batch. -/
theorem c2_marker_injection_counterexample :
    ([OCROutcome.ok [("--- TEXT FROM PAGE/IMAGE 2 ---", (9 : ℚ)/10)]] : List OCROutcome).length
        = 1 ∧
      countSub markerChars
        (extract_text_with_paddleocr
          [OCROutcome.ok [("--- TEXT FROM PAGE/IMAGE 2 ---", (9 : ℚ)/10)]]).data = 2 := by
  have hq : OCR_CONFIDENCE_THRESHOLD < (9 : ℚ)/10 := by
    norm_num [OCR_CONFIDENCE_THRESHOLD]
  refine ⟨rfl, ?_⟩
  have hd : decide (OCR_CONFIDENCE_THRESHOLD < (9 : ℚ)/10) = true := decide_eq_true hq
  show countSub markerChars (extractChars 0 _) = 2
  simp only [extractChars, bodyChars, highConfidenceTexts, List.filter, hd, joinNL,
    pageSeparatorChars, List.map_cons, List.map_nil, List.isEmpty_cons]
  decide

/-- C2 amended: provided no recognized line's text contains the marker string
`"--- TEXT FROM PAGE/IMAGE "`, the aggregated OCR text contains exactly one
marker occurrence per input image — regardless of per-image failures or empty
line lists — and for every page index `i < N` a marker numbered `i + 1`
occurs, preceded by exactly `i` marker occurrences (so the markers appear in
source order 1..N). -/
theorem c2_marker_count_amended (outs : List OCROutcome)
    (h : ∀ o ∈ outs, ∀ l ∈ linesOf o, countSub markerChars l.1.data = 0) :
    countSub markerChars (extract_text_with_paddleocr outs).data = outs.length ∧
      ∀ i, i < outs.length → ∃ pre post,
        (extract_text_with_paddleocr outs).data =
          pre ++ markerChars ++ natDigits (i + 1) ++ [' ', '-', '-', '-'] ++ post ∧
        countSub markerChars pre = i := by
  have hdata : (extract_text_with_paddleocr outs).data = extractChars 0 outs := rfl
  constructor
  · rw [hdata]
    exact countSub_extractChars outs h 0
  · intro i hi
    obtain ⟨o, t', hdrop⟩ : ∃ o t', outs.drop i = o :: t' := by
      cases hd : outs.drop i with
      | nil =>
        have : outs.length ≤ i := by
          have := congrArg List.length hd
          simp [List.length_drop] at this
          omega
        omega
      | cons o t' => exact ⟨o, t', rfl⟩
    refine ⟨extractChars 0 (outs.take i) ++ ['\n'],
      '\n' :: (bodyChars o ++ extractChars (i + 1) t'), ?_, ?_⟩
    · rw [hdata, extractChars_take_drop outs i 0, hdrop]
      show extractChars 0 (outs.take i) ++
          (pageSeparatorChars (0 + i) ++ bodyChars o ++ extractChars (0 + i + 1) t') = _
      simp [pageSeparatorChars, List.append_assoc]
    · rw [countSub_append_newline _ newline_not_mem_marker (Or.inr ⟨[], rfl⟩),
        countSub_extractChars _ (fun o' ho' l hl => h o' (List.take_subset _ _ ho') l hl) 0,
        show countSub markerChars ['\n'] = 0 from by decide, List.length_take]
      omega

/-- C2 amended witness: a two-image batch (one image with an empty line list,
one whose recognition returned nothing) has exactly two markers. -/
theorem c2_marker_count_amended_witness :
    countSub markerChars
        (extract_text_with_paddleocr [OCROutcome.ok [], OCROutcome.noResult]).data =
      ([OCROutcome.ok [], OCROutcome.noResult] : List OCROutcome).length ∧
      ∀ i, i < ([OCROutcome.ok [], OCROutcome.noResult] : List OCROutcome).length →
        ∃ pre post,
          (extract_text_with_paddleocr [OCROutcome.ok [], OCROutcome.noResult]).data =
            pre ++ markerChars ++ natDigits (i + 1) ++ [' ', '-', '-', '-'] ++ post ∧
          countSub markerChars pre = i :=
  c2_marker_count_amended [OCROutcome.ok [], OCROutcome.noResult]
    (by intro o ho l hl; fin_cases ho <;> simp [linesOf] at hl)

/-- C3: a text appears among the surviving lines of an image if and only if
some recognized line carries that text with confidence strictly greater than
the 0.80 threshold; in particular a line whose confidence is at most 0.80 is
never included by the filter feeding the aggregated text. -/
theorem c3_confidence_threshold_filter (ls : List (String × ℚ)) (t : String) :
    t ∈ highConfidenceTexts ls ↔ ∃ c, (t, c) ∈ ls ∧ OCR_CONFIDENCE_THRESHOLD < c :=
  mem_highConfidenceTexts

/-- C7: the post-validator is idempotent on every input, dict or not: a second
application leaves the first application's output unchanged (a normalized
date string no longer matches any of the five formats). -/
theorem c7_post_process_and_validate_idempotent (d : Data) :
    post_process_and_validate (post_process_and_validate d) = post_process_and_validate d := by
  cases d with
  | notDict v => rfl
  | dict fs =>
    simp [post_process_and_validate, List.map_map, Function.comp_def, processField_idem]

/-- C5: when the submitted files decode to zero images, the task raises the
descriptive fail-fast error immediately: the run is a FAILURE and the stage
trace is empty, so no OCR, language-model, validation, face-detection or
persistence work is reached. -/
theorem c5_fail_fast_on_zero_images (env : Env) (files : List (String × String × Bytes))
    (doc_type : String) (h : allImageBytes env files = []) :
    process_documents_task env files doc_type = (.failure (.strF noImagesMsg), []) := by
  simp [process_documents_task, h]

/-- C5 witness: one submitted PDF whose rendering fails entirely. -/
theorem c5_fail_fast_witness :
    process_documents_task envBase [("file_0", "doc.pdf", [1])] "Passport" =
      (.failure (.strF noImagesMsg), []) :=
  c5_fail_fast_on_zero_images envBase [("file_0", "doc.pdf", [1])] "Passport" (by decide)

/-- C6: face location never raises and returns at most one crop: it returns
`none` when no image's scan reports a nonempty candidate list (including when
every decode fails), and when it returns a crop, the images split as
`pre ++ b :: post` where every image of `pre` reported no candidate, image `b`
reported candidates `f :: fs`, the crop is taken from the largest-area
candidate of `b`, and that candidate's area dominates every candidate of `b`. -/
theorem c6_face_scan_first_largest (env : Env) (imgs : List Bytes) :
    ((∀ b ∈ imgs, ∀ f fs, env.faceScan b ≠ .found (f :: fs)) →
      detect_and_crop_face env imgs = none) ∧
    ∀ r, detect_and_crop_face env imgs = some r →
      ∃ pre b post f fs, imgs = pre ++ b :: post ∧
        (∀ b' ∈ pre, ∀ f' fs', env.faceScan b' ≠ .found (f' :: fs')) ∧
        env.faceScan b = .found (f :: fs) ∧
        r = env.cropFace b (largestFace f fs) ∧
        ∀ g ∈ f :: fs, rectArea g ≤ rectArea (largestFace f fs) := by
  induction imgs with
  | nil =>
    exact ⟨fun _ => rfl, fun r hr => by simp [detect_and_crop_face] at hr⟩
  | cons b rest ih =>
    constructor
    · intro hnone
      cases hscan : env.faceScan b with
      | found faces =>
        cases faces with
        | nil =>
          simp only [detect_and_crop_face, hscan]
          exact ih.1 fun b' hb' f fs => hnone b' (List.mem_cons_of_mem _ hb') f fs
        | cons f fs => exact absurd hscan (hnone b (List.mem_cons_self _ _) f fs)
      | noImage =>
        simp only [detect_and_crop_face, hscan]
        exact ih.1 fun b' hb' f fs => hnone b' (List.mem_cons_of_mem _ hb') f fs
      | failed m =>
        simp only [detect_and_crop_face, hscan]
        exact ih.1 fun b' hb' f fs => hnone b' (List.mem_cons_of_mem _ hb') f fs
    · intro r hr
      cases hscan : env.faceScan b with
      | found faces =>
        cases faces with
        | cons f fs =>
          have hr' : some (env.cropFace b (largestFace f fs)) = some r := by
            rw [← hr]; simp [detect_and_crop_face, hscan]
          exact ⟨[], b, rest, f, fs, rfl, by simp, hscan,
            (Option.some.inj hr').symm, rectArea_le_largestFace f fs⟩
        | nil =>
          have hr' : detect_and_crop_face env rest = some r := by
            rw [← hr]; simp [detect_and_crop_face, hscan]
          obtain ⟨pre, b', post, f, fs, he, hpre, hs, hrr, harea⟩ := ih.2 r hr'
          refine ⟨b :: pre, b', post, f, fs, by rw [List.cons_append, he], ?_, hs, hrr, harea⟩
          intro b'' hb'' f' fs'
          rcases List.mem_cons.mp hb'' with rfl | hb2
          · rw [hscan]; intro hc; exact List.cons_ne_nil _ _ (FaceScan.found.inj hc).symm
          · exact hpre b'' hb2 f' fs'
      | noImage =>
        have hr' : detect_and_crop_face env rest = some r := by
          rw [← hr]; simp [detect_and_crop_face, hscan]
        obtain ⟨pre, b', post, f, fs, he, hpre, hs, hrr, harea⟩ := ih.2 r hr'
        refine ⟨b :: pre, b', post, f, fs, by rw [List.cons_append, he], ?_, hs, hrr, harea⟩
        intro b'' hb'' f' fs'
        rcases List.mem_cons.mp hb'' with rfl | hb2
        · rw [hscan]; exact fun hc => by cases hc
        · exact hpre b'' hb2 f' fs'
      | failed m =>
        have hr' : detect_and_crop_face env rest = some r := by
          rw [← hr]; simp [detect_and_crop_face, hscan]
        obtain ⟨pre, b', post, f, fs, he, hpre, hs, hrr, harea⟩ := ih.2 r hr'
        refine ⟨b :: pre, b', post, f, fs, by rw [List.cons_append, he], ?_, hs, hrr, harea⟩
        intro b'' hb'' f' fs'
        rcases List.mem_cons.mp hb'' with rfl | hb2
        · rw [hscan]; exact fun hc => by cases hc
        · exact hpre b'' hb2 f' fs'

/-- C6 witness: an image with two candidates yields the crop of the larger,
and an environment that never detects yields the explicit no-face result. -/
theorem c6_face_scan_witness :
    (∃ pre b post f fs, ([[1]] : List Bytes) = pre ++ b :: post ∧
      (∀ b' ∈ pre, ∀ f' fs', envFace.faceScan b' ≠ .found (f' :: fs')) ∧
      envFace.faceScan b = .found (f :: fs) ∧
      ([7] : Bytes) = envFace.cropFace b (largestFace f fs) ∧
      ∀ g ∈ f :: fs, rectArea g ≤ rectArea (largestFace f fs)) ∧
    detect_and_crop_face envBase [[1]] = none :=
  ⟨(c6_face_scan_first_largest envFace [[1]]).2 [7] (by decide),
   (c6_face_scan_first_largest envBase [[1]]).1 (by intro b _ f fs h; cases h)⟩

/-- C8: the submission's files are processed in lexicographic submission-key
order (the reordered entry list is sorted and a permutation of the input) and
the decoded images are the in-order concatenation of the per-file
contributions; a non-PDF file contributes exactly its one normalized image, a
PDF contributes its rendered pages in order (each normalized), and a PDF
whose rendering fails entirely contributes zero images while the other
files' contributions are unaffected. -/
theorem c8_file_order_and_contributions (env : Env) (files : List (String × String × Bytes)) :
    List.Sorted keyLe (sortedEntries files) ∧
    (sortedEntries files).Perm files ∧
    allImageBytes env files =
      (sortedEntries files).flatMap (fun e => process_file_input env e.2.2 e.2.1) ∧
    (∀ b fn, isPdfFilename fn = false → process_file_input env b fn = [env.normalize b]) ∧
    (∀ b fn, isPdfFilename fn = true →
      process_file_input env b fn = (env.renderPdf b).pages.map env.normalize) ∧
    (∀ b fn, isPdfFilename fn = true → (env.renderPdf b).pages = [] →
      process_file_input env b fn = []) := by
  refine ⟨List.sorted_insertionSort keyLe files, List.perm_insertionSort keyLe files, rfl,
    ?_, ?_, ?_⟩
  · intro b fn h
    simp [process_file_input, h]
  · intro b fn h
    simp [process_file_input, h]
  · intro b fn h hp
    simp [process_file_input, h, hp]

/-- C8 witness: a plain image contributes one normalized image; an uppercase
`.PDF` name is treated as a PDF and contributes its pages in order; a PDF
rendering zero pages contributes nothing. -/
theorem c8_file_order_witness :
    process_file_input envBase [5] "photo.jpg" = [envBase.normalize [5]] ∧
    process_file_input envPdf [9] "Doc.PDF" = (envPdf.renderPdf [9]).pages.map envPdf.normalize ∧
    process_file_input envBase [9] "bad.pdf" = [] :=
  ⟨(c8_file_order_and_contributions envBase []).2.2.2.1 [5] "photo.jpg" (by decide),
   (c8_file_order_and_contributions envPdf []).2.2.2.2.1 [9] "Doc.PDF" (by decide),
   (c8_file_order_and_contributions envBase []).2.2.2.2.2 [9] "bad.pdf" (by decide) (by decide)⟩

/-- C9: every successful run persists, as `original_images`, exactly the raw
bytes of the submitted files, one entry per file in lexicographic
submission-key order — the bytes are collected before decoding is attempted,
so files that decode to zero images are included, and the list's length
equals the number of submitted files. -/
theorem c9_original_images_per_file (env : Env) (files : List (String × String × Bytes))
    (doc_type : String) (saved : SavedDoc) (tr : List Stage)
    (h : process_documents_task env files doc_type = (.success saved, tr)) :
    saved.originalImages = (sortedEntries files).map (fun e => e.2.2) ∧
    saved.originalImages.length = files.length := by
  unfold process_documents_task at h
  split at h
  · exact absurd (congrArg Prod.fst h) (by simp)
  · simp only [] at h
    split at h
    · exact absurd (congrArg Prod.fst h) (by simp)
    · have hs : saved = ⟨doc_type, _, originalImages files, _, _⟩ :=
        (RunResult.success.inj (congrArg Prod.fst h)).symm
      rw [hs]
      refine ⟨rfl, ?_⟩
      show (originalImages files).length = files.length
      rw [originalImages, List.length_map]
      exact (List.perm_insertionSort keyLe files).length_eq

/-- C9 witness: a successful two-file run (one file being a PDF that decodes
to zero images) persists both files' raw bytes, in key order. -/
theorem c9_original_images_witness :
    (⟨"ID", "dumped", [[1], [2]], none, 42⟩ : SavedDoc).originalImages =
      (sortedEntries twoFiles).map (fun e => e.2.2) ∧
    (⟨"ID", "dumped", [[1], [2]], none, 42⟩ : SavedDoc).originalImages.length =
      twoFiles.length :=
  c9_original_images_per_file envOk twoFiles "ID" ⟨"ID", "dumped", [[1], [2]], none, 42⟩
    [.ocrStage, .llmStage, .validateStage, .faceStage, .saveStage] (by decide)

/-- C4 counterexample: the endpoint replies with the non-2xx status 301 and a
JSON body; `raise_for_status` raises only for the 400-599 range, so the engine
returns the parsed data with no error key and the orchestrator completes the
run (and persists a record) instead of terminating in FAILURE.  A status-600
reply — deliverable, since `http.client` accepts status lines 100-999 — flows
through just the same, pinning the raising range to exactly 400-599. -/
theorem c4_non2xx_counterexample :
    structure_data_with_master_prompt env301 "" [] =
        Data.dict [("document_type", Field.strF "other")] ∧
      hasErrorKey env301 (structure_data_with_master_prompt env301 "" []) = false ∧
      (process_documents_task env301 [("file_0", "a.jpg", [1])] "Passport").1 =
        RunResult.success ⟨"Passport", "dumped", [[1]], none, 42⟩ ∧
      structure_data_with_master_prompt env600 "" [] =
        Data.dict [("document_type", Field.strF "other")] ∧
      hasErrorKey env600 (structure_data_with_master_prompt env600 "" []) = false :=
  ⟨by decide, by decide, by decide, by decide, by decide⟩

/-- C4 amended: for every failure of the structuring call — transport error,
HTTP-error status in the 400-599 range `raise_for_status` raises for,
non-JSON body, or unparsable response payload — the engine does not raise but
returns the error-sentinel record, whose error text carries the underlying
failure description; the orchestrator, on seeing an error key in the
structuring result, terminates the run in FAILURE with that value, reaching
neither post-validation, face detection nor persistence. -/
theorem c4_error_sentinel_and_abort (env : Env) :
    (∀ rt imgs e, env.http (master_prompt rt) imgs = .error e →
      structure_data_with_master_prompt env rt imgs = errRecord e) ∧
    (∀ rt imgs resp, env.http (master_prompt rt) imgs = .ok resp →
      400 ≤ resp.statusCode → resp.statusCode < 600 →
      structure_data_with_master_prompt env rt imgs = errRecord (env.statusMsg resp.statusCode)) ∧
    (∀ rt imgs resp e, env.http (master_prompt rt) imgs = .ok resp →
      ¬(400 ≤ resp.statusCode ∧ resp.statusCode < 600) →
      resp.jsonBody = .error e →
      structure_data_with_master_prompt env rt imgs = errRecord e) ∧
    (∀ rt imgs resp obj e, env.http (master_prompt rt) imgs = .ok resp →
      ¬(400 ≤ resp.statusCode ∧ resp.statusCode < 600) → resp.jsonBody = .ok obj →
      env.loads ((lookupKey "response" obj).getD "\x7b\x7d") = .error e →
      structure_data_with_master_prompt env rt imgs = errRecord e) ∧
    (∀ e, hasErrorKey env (errRecord e) = true ∧
      errorKeyVal env (errRecord e) = .strF (llmErrText ++ e)) ∧
    (∀ files dt, ¬(allImageBytes env files).isEmpty = true →
      hasErrorKey env (structuredOf env files) = true →
      process_documents_task env files dt =
        (.failure (errorKeyVal env (structuredOf env files)), [.ocrStage, .llmStage])) := by
  refine ⟨?_, ?_, ?_, ?_, ?_, ?_⟩
  · intro rt imgs e h
    unfold structure_data_with_master_prompt
    rw [h]
  · intro rt imgs resp h hs1 hs2
    unfold structure_data_with_master_prompt
    rw [h]
    dsimp only
    rw [if_pos ⟨hs1, hs2⟩]
  · intro rt imgs resp e h hs hb
    unfold structure_data_with_master_prompt
    rw [h]
    dsimp only
    rw [if_neg hs, hb]
  · intro rt imgs resp obj e h hs hb hl
    unfold structure_data_with_master_prompt
    rw [h]
    dsimp only
    rw [if_neg hs, hb]
    dsimp only
    rw [hl]
  · intro e
    exact ⟨by simp [hasErrorKey, errRecord], by simp [errorKeyVal, errRecord]⟩
  · intro files dt himg herr
    unfold process_documents_task
    rw [if_neg himg]
    simp only []
    rw [if_pos herr]

/-- C4 amended witness: with an unreachable endpoint, the engine returns the
sentinel record and the run fails after the OCR and model stages only. -/
theorem c4_error_sentinel_witness :
    structure_data_with_master_prompt envBase "" [] = errRecord "connection refused" ∧
    process_documents_task envBase [("file_0", "a.jpg", [1])] "Passport" =
      (.failure (errorKeyVal envBase (structuredOf envBase [("file_0", "a.jpg", [1])])),
        [.ocrStage, .llmStage]) :=
  ⟨(c4_error_sentinel_and_abort envBase).1 "" [] "connection refused" rfl,
   (c4_error_sentinel_and_abort envBase).2.2.2.2.2 [("file_0", "a.jpg", [1])] "Passport"
     (by decide) (by decide)⟩

/-- C10: a 2xx reply whose JSON body lacks the `response` key makes the
engine parse the default `"\x7b\x7d"` payload: it returns the empty record,
which carries no error key, so the run proceeds through validation and face
detection and persists a record whose extracted data is the empty object. -/
theorem c10_missing_response_key_empty_record (env : Env)
    (files : List (String × String × Bytes)) (dt : String) (st : Nat)
    (obj : List (String × String))
    (himg : ¬(allImageBytes env files).isEmpty = true)
    (hhttp : ∀ p imgs, env.http p imgs = .ok ⟨st, .ok obj⟩)
    (hst : 200 ≤ st ∧ st ≤ 299)
    (hobj : lookupKey "response" obj = none)
    (hloads : env.loads "\x7b\x7d" = .ok (.dict [])) :
    structuredOf env files = .dict [] ∧
    process_documents_task env files dt =
      (.success ⟨dt, env.dumps (.dict []), originalImages files,
          detect_and_crop_face env (allImageBytes env files),
          env.save dt (env.dumps (.dict [])) (originalImages files)
            (detect_and_crop_face env (allImageBytes env files))⟩,
        [.ocrStage, .llmStage, .validateStage, .faceStage, .saveStage]) := by
  have hsd : structuredOf env files = .dict [] := by
    unfold structuredOf structure_data_with_master_prompt
    rw [hhttp]
    dsimp only
    rw [if_neg (by omega),
      show (lookupKey "response" obj).getD "\x7b\x7d" = "\x7b\x7d" from by rw [hobj]; rfl,
      hloads]
  refine ⟨hsd, ?_⟩
  unfold process_documents_task
  rw [if_neg himg]
  simp only [hsd]
  rw [if_neg (by simp [hasErrorKey])]
  rfl

/-- C10 witness: a 200 reply with body lacking the response key yields the
empty record and a persisted run. -/
theorem c10_missing_response_key_witness :
    structuredOf env200NoResp [("file_0", "a.jpg", [1])] = .dict [] ∧
    process_documents_task env200NoResp [("file_0", "a.jpg", [1])] "ID" =
      (.success ⟨"ID", env200NoResp.dumps (.dict []),
          originalImages [("file_0", "a.jpg", [1])],
          detect_and_crop_face env200NoResp
            (allImageBytes env200NoResp [("file_0", "a.jpg", [1])]),
          env200NoResp.save "ID" (env200NoResp.dumps (.dict []))
            (originalImages [("file_0", "a.jpg", [1])])
            (detect_and_crop_face env200NoResp
              (allImageBytes env200NoResp [("file_0", "a.jpg", [1])]))⟩,
        [.ocrStage, .llmStage, .validateStage, .faceStage, .saveStage]) :=
  c10_missing_response_key_empty_record env200NoResp [("file_0", "a.jpg", [1])] "ID" 200
    [("done", "1")] (by decide) (fun p imgs => rfl) (by omega) (by decide) rfl

end OcrApp
